import Mathlib

/-!
Shallow embedding of the `device` utility layer of xbutil
(`src/runtime_src/driver/xclng/tools/xbutil/xbutil.h`), covering:

* the ring-buffer pending-transfer arithmetic of
  `m_stream_usage_stringize_dynamics` (lines 800-816),
* `program` (lines 1100-1137),
* `boot` (lines 1148-1162),
* `dmatest`'s per-bank, per-size validation sweep (lines 1184-1245),
* the ARE address-range guards of `memread` / `memwrite` (lines 1284-1344),
* the block count computation of `do_dd` (lines 1394-1432).

Machine `int` arithmetic is modelled as bit patterns: `Nat` values reduced
mod 2^32, with two's-complement subtraction realised as
`(a + 2^32 - b) % 2^32`, so that C's bitwise AND on the difference is
`Nat.land` on the patterns.
-/

namespace Xbutil

/-- Truncate a value to a 32-bit pattern, as C `int` arithmetic does. -/
def w32 (n : Nat) : Nat := n % 4294967296

/-- Two's-complement 32-bit subtraction on bit patterns. -/
def sub32 (a b : Nat) : Nat := (w32 a + 4294967296 - w32 b) % 4294967296

/-- Host-to-card pending bytes, from `m_stream_usage_stringize_dynamics`
(xbutil.h:802-803):
`((stoi(descq_pidx) - stoi(descq_cidx)) & (stoi(descq_rngsz) - 1)) * 4096`. -/
def write_pending (descq_pidx descq_cidx descq_rngsz : Nat) : Nat :=
  w32 (Nat.land (sub32 descq_pidx descq_cidx) (sub32 descq_rngsz 1) * 4096)

/-- Card-to-host pending bytes, from `m_stream_usage_stringize_dynamics`
(xbutil.h:812-813):
`((stoi(c2h_wrb_pidx) - stoi(descq_cidx_wrb_pend)) & (stoi(descq_rngsz) - 1)) * 4096`. -/
def read_pending (c2h_wrb_pidx descq_cidx_wrb_pend descq_rngsz : Nat) : Nat :=
  w32 (Nat.land (sub32 c2h_wrb_pidx descq_cidx_wrb_pend) (sub32 descq_rngsz 1) * 4096)

/-- Hardware calls that `device::program` can issue through the device API. -/
inductive HwCall
  | lockDevice
  | loadXclBin
  | unlockDevice
deriving DecidableEq, Repr

/-- Exit paths of `device::program` (xbutil.h:1100-1137), one constructor per
return site. `openFailed` returns `-ENOENT`; `unsupportedRegion` and
`invalidBitstreamFormat` both return `-EINVAL`; `lockFailed` returns the
nonzero `xclLockDevice` result; `loadOutcome` returns the `xclLoadXclBin`
result after `xclUnlockDevice`. -/
inductive ProgResult
  | openFailed
  | unsupportedRegion
  | invalidBitstreamFormat
  | lockFailed (code : Int)
  | loadOutcome (code : Int)
deriving DecidableEq, Repr

/-- The `int` each `ProgResult` maps to in the C code. -/
def ProgResult.code : ProgResult → Int
  | .openFailed => -2
  | .unsupportedRegion => -22
  | .invalidBitstreamFormat => -22
  | .lockFailed c => c
  | .loadOutcome c => c

/-- Bytes "xclbin0\0": `strncmp(temp, "xclbin0", 8) == 0` holds exactly when
the 8 bytes of `temp` are these (the comparison includes the terminator). -/
def xclbin0Magic : List Nat := [120, 99, 108, 98, 105, 110, 48, 0]

/-- Bytes "xclbin2\0". -/
def xclbin2Magic : List Nat := [120, 99, 108, 98, 105, 110, 50, 0]

/-- Bytes "notvalid". -/
def notvalidMagic : List Nat := [110, 111, 116, 118, 97, 108, 105, 100]

/-- The magic test of xbutil.h:1116-1119: accepted iff the 8 header bytes
equal one of the two fixed tags. -/
def magicAccepted (header : List Nat) : Bool :=
  header == xclbin0Magic || header == xclbin2Magic

/-- The control flow of `device::program` (xbutil.h:1100-1137). `readable`
models `stream.is_open()`; `header` the 8 bytes read into `temp`;
`lockResult` / `loadResult` the device API statuses. Besides the exit path
taken, the model returns the list of hardware calls issued, in order. -/
def program (readable : Bool) (header : List Nat) (region : Nat)
    (lockResult loadResult : Int) : ProgResult × List HwCall :=
  if !readable then (.openFailed, [])
  else if region ≠ 0 then (.unsupportedRegion, [])
  else if !magicAccepted header then (.invalidBitstreamFormat, [])
  else if lockResult ≠ 0 then (.lockFailed lockResult, [.lockDevice])
  else (.loadOutcome loadResult, [.lockDevice, .loadXclBin, .unlockDevice])

/-- Device interactions that `device::boot` can issue. -/
inductive BootCall
  | bootFPGA
  | reopen
deriving DecidableEq, Repr

/-- The control flow of `device::boot` (xbutil.h:1148-1162). Unprivileged
callers (`getuid() && geteuid()` truthy, i.e. both nonzero) get `-EACCES`
with no device interaction. Otherwise `xclBootFPGA` runs; on status 0 the
handle is reopened, and a null reopened handle turns the result into `-1`. -/
def boot (uid euid : Nat) (bootFPGAResult : Int) (reopenSucceeds : Bool) :
    Int × List BootCall :=
  if uid ≠ 0 ∧ euid ≠ 0 then (-13, [])
  else if bootFPGAResult = 0 then
    if reopenSucceeds then (0, [.bootFPGA, .reopen])
    else (-1, [.bootFPGA, .reopen])
  else (bootFPGAResult, [.bootFPGA])

/-- Memory bank type as `dmatest` distinguishes it: `MEM_STREAMING` entries
are skipped, everything else takes part in the test. -/
inductive MemType
  | streaming
  | other
deriving DecidableEq, Repr

/-- The fields of a `mem_topology` entry that `dmatest` reads
(xbutil.h:1223-1232). -/
structure MemData where
  m_type : MemType
  m_used : Bool
  m_base_address : Nat
deriving DecidableEq, Repr

/-- The doubling size sweep of xbutil.h:1234: `for (sz = 1; sz <= 256; sz *= 2)`. -/
def dmaSweepSizes : List Nat := [1, 2, 4, 8, 16, 32, 64, 128, 256]

/-- The inner size loop of `dmatest` (xbutil.h:1234-1241). `wr addr sz` and
`rdcmp addr sz` are the statuses of `memwriteQuiet` and `memreadCompare`
(they delegate to `memaccess`, which is not part of this tree; per the
spec's error convention a `DmaVerificationFailure` or write failure is a
negative status). Returns the sizes attempted (a write was issued for each)
and the final status; a negative status from either call is returned at
once, abandoning the remaining sizes — this mirrors the two
`if (result < 0) return result;` statements. -/
def dmaSweep (wr rdcmp : Nat → Nat → Int) (addr : Nat) :
    List Nat → List Nat × Int
  | [] => ([], 0)
  | sz :: rest =>
    if wr addr sz < 0 then ([sz], wr addr sz)
    else if rdcmp addr sz < 0 then ([sz], rdcmp addr sz)
    else (sz :: (dmaSweep wr rdcmp addr rest).1,
          (dmaSweep wr rdcmp addr rest).2)

/-- The bank loop of `dmatest` (xbutil.h:1223-1245) over the indexed
`mem_topology` entries. `run i` is the status of `DMARunner(..., i).run()`;
it overwrites the running result but is not checked for failure inside the
loop. `acc` is the current value of `result` (initialised 0 at
xbutil.h:1196). The trace lists the (bank index, size) pairs attempted; a
negative sweep status is returned immediately, abandoning later banks. -/
def dmatestLoop (wr rdcmp : Nat → Nat → Int) (run : Nat → Int) (acc : Int) :
    List (Nat × MemData) → List (Nat × Nat) × Int
  | [] => ([], acc)
  | (i, md) :: rest =>
    if md.m_type = MemType.streaming then
      dmatestLoop wr rdcmp run acc rest
    else if md.m_used then
      if (dmaSweep wr rdcmp md.m_base_address dmaSweepSizes).2 < 0 then
        ((dmaSweep wr rdcmp md.m_base_address dmaSweepSizes).1.map
          (fun sz => (i, sz)),
         (dmaSweep wr rdcmp md.m_base_address dmaSweepSizes).2)
      else
        ((dmaSweep wr rdcmp md.m_base_address dmaSweepSizes).1.map
          (fun sz => (i, sz)) ++ (dmatestLoop wr rdcmp run (run i) rest).1,
         (dmatestLoop wr rdcmp run (run i) rest).2)
    else
      dmatestLoop wr rdcmp run acc rest

/-- The validation part of `device::dmatest` over a memory topology. -/
def dmatest (wr rdcmp : Nat → Nat → Int) (run : Nat → Int)
    (banks : List MemData) : List (Nat × Nat) × Int :=
  dmatestLoop wr rdcmp run 0 banks.enum

/-- The two warnings the ARE guards of `memread` / `memwrite` can print. -/
inductive AreWarning
  | startOverARE
  | sizeOverARE
deriving DecidableEq, Repr

/-- Truncate a value to a 64-bit pattern, as C `unsigned long long`
arithmetic does. -/
def w64 (n : Nat) : Nat := n % 18446744073709551616

/-- The ARE bounds-check shared by `memread` (xbutil.h:1285-1294) and
`memwrite` (xbutil.h:1314-1323): on an ARE device (`strstr(mName, "-xare")`
nonnull, modelled by `isARE`) a start address beyond `mDDRSize` and a size
or end beyond `mDDRSize` each print a warning; execution then continues
unconditionally. The arguments are 64-bit values; `aStartAddr + aSize` is
the one operation that can leave that range and is computed wrapping mod
2^64, as the `unsigned long long` sum at xbutil.h:1290/1319 does. -/
def areWarnings (isARE : Bool) (ddrSize aStartAddr aSize : Nat) :
    List AreWarning :=
  if isARE then
    (if aStartAddr > ddrSize then [AreWarning.startOverARE] else []) ++
      (if aSize > ddrSize ∨ w64 (aStartAddr + aSize) > ddrSize then
        [AreWarning.sizeOverARE] else [])
  else []

/-- `device::memwrite` (xbutil.h:1313-1327): after the ARE warnings, the
request is handed to `memaccess(...).write` with `aStartAddr` and `aSize`
unchanged. `memaccess` is not part of this tree; modelled from the spec's
design note that the transfer is attempted as forwarded. The result pairs
the warnings printed with the (address, size) range the transfer is
attempted on. -/
def memwrite (isARE : Bool) (ddrSize aStartAddr aSize : Nat) :
    List AreWarning × (Nat × Nat) :=
  (areWarnings isARE ddrSize aStartAddr aSize, (aStartAddr, aSize))

/-- `device::memread` (xbutil.h:1284-1298): same guard and forwarding shape
as `memwrite`, delegating to `memaccess(...).read`. -/
def memread (isARE : Bool) (ddrSize aStartAddr aSize : Nat) :
    List AreWarning × (Nat × Nat) :=
  (areWarnings isARE ddrSize aStartAddr aSize, (aStartAddr, aSize))

/-- The block count `do_dd` computes in the file-to-device direction when
the count option is omitted (xbutil.h:1403-1408):
`args.count = length / args.blockSize + 1; // round up`
with C truncating integer division. -/
def ddComputedCount (length blockSize : Nat) : Nat :=
  length / blockSize + 1

/-- A write model that always succeeds, for concrete evaluations. -/
def wrOk : Nat → Nat → Int := fun _ _ => 0

/-- A read-back model whose verification fails exactly at block size 4. -/
def rdFailAt4 : Nat → Nat → Int := fun _ sz => if sz = 4 then -1 else 0

/-- A read-back model that always succeeds, for concrete evaluations. -/
def rdOk : Nat → Nat → Int := fun _ _ => 0

/-- A write model that fails exactly at block size 2, with status -3. -/
def wrFailAt2 : Nat → Nat → Int := fun _ sz => if sz = 2 then -3 else 0

/-- Two used non-streaming banks, at base addresses 0 and 4096. -/
def twoBanks : List MemData :=
  [⟨MemType.other, true, 0⟩, ⟨MemType.other, true, 4096⟩]

/-- Characterisation of the magic test: it passes exactly on the two tags. -/
theorem magicAccepted_true_iff (header : List Nat) :
    magicAccepted header = true ↔
      header = xclbin0Magic ∨ header = xclbin2Magic := by
  unfold magicAccepted
  simp

/-! Theorems settling the claims. -/

/-- Claim C9: the ring-buffer pending-byte computation yields 0 whenever the
consumer index equals the producer index, for every index value and every
ring size (the descriptor unit is the hardcoded 4096; see C10). -/
theorem write_pending_self_zero (p rngsz : Nat) :
    write_pending p p rngsz = 0 := by
  have h : sub32 p p = 0 := by
    unfold sub32 w32
    omega
  unfold write_pending
  rw [h]
  have hl : Nat.land 0 (sub32 rngsz 1) = 0 := Nat.zero_and _
  rw [hl]
  simp [w32]

/-- Claim C10: both pending-transfer computations are the masked index
difference multiplied by the fixed constant 4096; the unit is hardcoded and
identical for the host-to-card and card-to-host directions. -/
theorem pending_unit_hardcoded (p c rngsz : Nat) :
    write_pending p c rngsz = read_pending p c rngsz ∧
    write_pending p c rngsz
      = w32 (Nat.land (sub32 p c) (sub32 rngsz 1) * 4096) :=
  ⟨rfl, rfl⟩

/-- Claim C3 (code_bug evidence): the omitted-count computation of `do_dd`
gives 3 blocks for a 10,000-byte file with 4096-byte blocks, as the spec
says, but on an exact multiple (4096 bytes, 4096-byte blocks) it gives 2
blocks where rounding up — the code's own stated intent — gives 1. -/
theorem ddComputedCount_not_round_up :
    ddComputedCount 10000 4096 = 3 ∧
    ddComputedCount 4096 4096 = 2 ∧
    (4096 + 4096 - 1) / 4096 = 1 := by
  decide

/-- Claim C8: a caller without elevated privilege (real and effective uid
both nonzero) gets `-EACCES` from `boot` and no device interaction occurs. -/
theorem boot_requires_privilege (uid euid : Nat) (r : Int) (ro : Bool)
    (hu : uid ≠ 0) (he : euid ≠ 0) :
    boot uid euid r ro = (-13, []) := by
  unfold boot
  rw [if_pos ⟨hu, he⟩]

/-- Witness for `boot_requires_privilege` at uid 1000, euid 1000. -/
theorem boot_requires_privilege_witness :
    boot 1000 1000 0 true = (-13, []) :=
  boot_requires_privilege 1000 1000 0 true (by decide) (by decide)

/-- Claim C4 (counterexample): a plain boot failure in which `xclBootFPGA`
returns -1 and a successful reboot whose handle reopen fails both make
`boot` return -1, so the two failure modes are not distinguishable from the
returned result. -/
theorem boot_failure_codes_collide :
    (boot 0 0 (-1) true).1 = -1 ∧ (boot 0 0 0 false).1 = -1 ∧
    (boot 0 0 (-1) true).1 = (boot 0 0 0 false).1 := by
  decide

/-- Claim C4 (amended): a reopen failure after a successful firmware reboot
returns -1 while a plain boot failure returns the `xclBootFPGA` status
unchanged, so the two outcomes are distinguishable from the returned result
exactly when that status is not -1. -/
theorem boot_reopen_failure_code (r : Int) (h0 : r ≠ 0) (h1 : r ≠ -1) :
    (boot 0 0 r true).1 = r ∧ (boot 0 0 0 false).1 = -1 ∧
    (boot 0 0 r true).1 ≠ (boot 0 0 0 false).1 := by
  refine ⟨?_, ?_, ?_⟩ <;> simp [boot, h0, h1]

/-- Witness for `boot_reopen_failure_code` at boot status -5. -/
theorem boot_reopen_failure_code_witness :
    (boot 0 0 (-5) true).1 = -5 ∧ (boot 0 0 0 false).1 = -1 ∧
    (boot 0 0 (-5) true).1 ≠ (boot 0 0 0 false).1 :=
  boot_reopen_failure_code (-5) (by decide) (by decide)

/-- Claim C7: on a readable bitstream file, any region other than 0 makes
`program` fail through the unsupported-region exit, with no hardware call
issued. -/
theorem program_region_guard (header : List Nat) (region : Nat)
    (l d : Int) (h : region ≠ 0) :
    program true header region l d = (ProgResult.unsupportedRegion, []) := by
  unfold program
  simp [h]

/-- Witness for `program_region_guard` at region 1. -/
theorem program_region_guard_witness :
    program true xclbin2Magic 1 0 0 = (ProgResult.unsupportedRegion, []) :=
  program_region_guard xclbin2Magic 1 0 0 (by decide)

/-- Claim C5: on a readable file at region 0, `program` takes the
invalid-bitstream-format exit exactly when the 8 header bytes are neither
"xclbin0\0" nor "xclbin2\0"; that rejection issues no hardware call; and
the header "notvalid" is such a rejection. -/
theorem program_magic_acceptance (header : List Nat) (l d : Int) :
    ((program true header 0 l d).1 = ProgResult.invalidBitstreamFormat
      ↔ ¬(header = xclbin0Magic ∨ header = xclbin2Magic))
    ∧ ((program true header 0 l d).1 = ProgResult.invalidBitstreamFormat
        → (program true header 0 l d).2 = [])
    ∧ program true notvalidMagic 0 l d
        = (ProgResult.invalidBitstreamFormat, []) := by
  have hchar : ∀ hdr, magicAccepted hdr = false →
      program true hdr 0 l d = (ProgResult.invalidBitstreamFormat, []) := by
    intro hdr hm
    simp [program, hm]
  by_cases h : header = xclbin0Magic ∨ header = xclbin2Magic
  · have hm : magicAccepted header = true := (magicAccepted_true_iff header).mpr h
    have hne : (program true header 0 l d).1
        ≠ ProgResult.invalidBitstreamFormat := by
      by_cases hl : l = 0 <;> simp [program, hm, hl]
    exact ⟨iff_of_false hne fun hn => hn h, fun hc => absurd hc hne,
      hchar notvalidMagic (by decide)⟩
  · have hm : magicAccepted header = false := by
      rcases Bool.eq_false_or_eq_true (magicAccepted header) with ht | hf
      · exact absurd ((magicAccepted_true_iff header).mp ht) h
      · exact hf
    have heq := hchar header hm
    refine ⟨iff_of_true (by rw [heq]) h, fun _ => by rw [heq],
      hchar notvalidMagic (by decide)⟩

/-- Witness for `program_magic_acceptance`: the "notvalid" header is
rejected through the invalid-bitstream-format exit with no hardware call. -/
theorem program_magic_acceptance_witness :
    (program true notvalidMagic 0 3 0).1 = ProgResult.invalidBitstreamFormat
    ∧ (program true notvalidMagic 0 3 0).2 = [] := by
  have h := program_magic_acceptance notvalidMagic 3 0
  have h1 : (program true notvalidMagic 0 3 0).1
      = ProgResult.invalidBitstreamFormat := h.1.mpr (by decide)
  exact ⟨h1, h.2.1 h1⟩

/-- Claim C6: `program` issues the lock call only when the open, region and
magic validations have all passed, and whenever the lock call succeeded
(`xclLockDevice` returned 0) the unlock call is issued too, on every exit
path — in particular when the bitstream load itself fails. -/
theorem program_lock_discipline (readable : Bool) (header : List Nat)
    (region : Nat) (l d : Int) :
    (HwCall.lockDevice ∈ (program readable header region l d).2 →
      readable = true ∧ region = 0 ∧ magicAccepted header = true)
    ∧ (l = 0 → HwCall.lockDevice ∈ (program readable header region l d).2 →
        HwCall.unlockDevice ∈ (program readable header region l d).2) := by
  cases readable <;> by_cases hr : region = 0 <;>
    rcases Bool.eq_false_or_eq_true (magicAccepted header) with hm | hm <;>
    by_cases hl : l = 0 <;> simp [program, hr, hm, hl]

/-- Witness for `program_lock_discipline`: with a valid header, region 0, a
successful lock and a failing load (status -7), the unlock call is issued. -/
theorem program_lock_discipline_witness :
    HwCall.unlockDevice ∈ (program true xclbin2Magic 0 0 (-7)).2 :=
  (program_lock_discipline true xclbin2Magic 0 0 (-7)).2 rfl (by decide)

/-- Claim C1 (counterexample): two faults, one of each kind, each stop the
sweep instead of letting it proceed. With every write succeeding and the
read-back verification failing at size 4, the sweep on the first of two
used banks stops at size 4 — size 8 on that bank is never attempted, the
second bank is never attempted, and `dmatest` returns the failure at once.
With the pattern write itself failing at size 2 (and read-back always
passing), the sweep likewise stops at size 2: size 4 and the second bank
are never attempted. -/
theorem dmatest_stops_at_first_failure :
    dmatest wrOk rdFailAt4 (fun _ => 0) twoBanks = ([(0, 1), (0, 2), (0, 4)], -1)
    ∧ (0, 8) ∉ (dmatest wrOk rdFailAt4 (fun _ => 0) twoBanks).1
    ∧ (1, 1) ∉ (dmatest wrOk rdFailAt4 (fun _ => 0) twoBanks).1
    ∧ dmatest wrFailAt2 rdOk (fun _ => 0) twoBanks = ([(0, 1), (0, 2)], -3)
    ∧ (0, 4) ∉ (dmatest wrFailAt2 rdOk (fun _ => 0) twoBanks).1
    ∧ (1, 1) ∉ (dmatest wrFailAt2 rdOk (fun _ => 0) twoBanks).1 := by
  decide

/-- Claim C1 (amended): when the pattern write at the head size fails, or
it succeeds and its read-back verification fails, the sweep ends at that
size with the failing status, abandoning all remaining sizes; and when a
used non-streaming bank's sweep fails, `dmatest`'s bank loop returns that
bank's partial trace and failure status at once, abandoning all later
banks. -/
theorem dmatest_single_fault_aborts (wr rdcmp : Nat → Nat → Int)
    (run : Nat → Int) (acc : Int) (addr sz : Nat) (sizes : List Nat)
    (i : Nat) (md : MemData) (rest : List (Nat × MemData))
    (hfault : wr addr sz < 0 ∨ rdcmp addr sz < 0)
    (hstream : md.m_type ≠ MemType.streaming) (hused : md.m_used = true)
    (hfail : (dmaSweep wr rdcmp md.m_base_address dmaSweepSizes).2 < 0) :
    dmaSweep wr rdcmp addr (sz :: sizes)
      = ([sz], if wr addr sz < 0 then wr addr sz else rdcmp addr sz)
    ∧ dmatestLoop wr rdcmp run acc ((i, md) :: rest)
      = ((dmaSweep wr rdcmp md.m_base_address dmaSweepSizes).1.map
          (fun s => (i, s)),
         (dmaSweep wr rdcmp md.m_base_address dmaSweepSizes).2) := by
  constructor
  · unfold dmaSweep
    by_cases hw : wr addr sz < 0
    · rw [if_pos hw, if_pos hw]
    · have hr : rdcmp addr sz < 0 := hfault.resolve_left hw
      rw [if_neg hw, if_pos hr, if_neg hw]
  · unfold dmatestLoop
    rw [if_neg hstream, if_pos hused, if_pos hfail]

/-- Witness for `dmatest_single_fault_aborts`, applied twice: once with the
pattern write failing at size 2 and once with the read-back verification
failing at size 4, each on the first of two used banks. -/
theorem dmatest_single_fault_aborts_witness :
    (dmaSweep wrFailAt2 rdOk 0 (2 :: [4, 8]) = ([2], -3)
      ∧ dmatestLoop wrFailAt2 rdOk (fun _ => 0) 0
          ((0, ⟨MemType.other, true, 0⟩) :: [(1, ⟨MemType.other, true, 4096⟩)])
        = ([(0, 1), (0, 2)], -3))
    ∧ (dmaSweep wrOk rdFailAt4 0 (4 :: [8, 16, 32, 64, 128, 256]) = ([4], -1)
      ∧ dmatestLoop wrOk rdFailAt4 (fun _ => 0) 0
          ((0, ⟨MemType.other, true, 0⟩) :: [(1, ⟨MemType.other, true, 4096⟩)])
        = ([(0, 1), (0, 2), (0, 4)], -1)) := by
  have hA := dmatest_single_fault_aborts wrFailAt2 rdOk (fun _ => 0) 0 0 2
    [4, 8] 0 ⟨MemType.other, true, 0⟩ [(1, ⟨MemType.other, true, 4096⟩)]
    (Or.inl (by decide)) (by decide) (by decide) (by decide)
  have hB := dmatest_single_fault_aborts wrOk rdFailAt4 (fun _ => 0) 0 0 4
    [8, 16, 32, 64, 128, 256] 0 ⟨MemType.other, true, 0⟩
    [(1, ⟨MemType.other, true, 4096⟩)]
    (Or.inr (by decide)) (by decide) (by decide) (by decide)
  exact ⟨⟨hA.1.trans (by decide), hA.2.trans (by decide)⟩,
    ⟨hB.1.trans (by decide), hB.2.trans (by decide)⟩⟩

/-- Claim C2 (counterexample): on an ARE device with 16 bytes of memory, a
write request at address 0 of size 32 produces the over-range warning and
is then attempted with the full requested size 32 — not with the in-range
portion, which is 16; the read path forwards identically. -/
theorem are_transfer_not_truncated :
    memwrite true 16 0 32 = ([AreWarning.sizeOverARE], (0, 32))
    ∧ (memwrite true 16 0 32).2.2 ≠ min 32 (16 - 0)
    ∧ memread true 16 0 32 = ([AreWarning.sizeOverARE], (0, 32)) := by
  decide

/-- Claim C2 (amended): on the ARE variant, every read or write request the
code's guards find out of range — start address beyond total device memory,
size beyond it, or 64-bit wrapped end address beyond it — is reported by at
least one warning and is not fatal, and the transfer is then attempted with
the original start address and the full requested size, unchanged. -/
theorem are_out_of_range_policy (isARE : Bool) (d a s : Nat)
    (hare : isARE = true) (hout : a > d ∨ s > d ∨ w64 (a + s) > d) :
    (memwrite isARE d a s).1 ≠ [] ∧ (memwrite isARE d a s).2 = (a, s)
    ∧ (memread isARE d a s).1 ≠ [] ∧ (memread isARE d a s).2 = (a, s) := by
  subst hare
  have hne : areWarnings true d a s ≠ [] := by
    unfold areWarnings
    rcases hout with h | h | h
    · rw [if_pos h]
      simp
    · rw [if_pos (Or.inl h)]
      simp
    · rw [if_pos (Or.inr h)]
      simp
  exact ⟨hne, rfl, hne, rfl⟩

/-- Witness for `are_out_of_range_policy`: a 16-byte request at address 8
against 16 bytes of memory runs past the end (wrapped end address 24),
warns, and is forwarded whole. -/
theorem are_out_of_range_policy_witness :
    (memwrite true 16 8 16).1 ≠ [] ∧ (memwrite true 16 8 16).2 = (8, 16)
    ∧ (memread true 16 8 16).1 ≠ [] ∧ (memread true 16 8 16).2 = (8, 16) :=
  are_out_of_range_policy true 16 8 16 rfl (Or.inr (Or.inr (by decide)))

end Xbutil
